import Mathlib

/-!
Verification development for asyncmd's line-based configuration store
(`src/asyncmd/mdconfig.py`).  The Python classes `FlagChangeList`,
`TypedFlagChangeList` and `LineBasedMDConfig` are shallowly embedded as
Lean structures and pure functions; file I/O is modelled by an explicit
association list from paths to file contents, and Python exceptions by an
error type threaded through `Except` (or returned alongside the
post-state when a method can partially mutate before raising).
-/

/-- Python exception kinds raised by the embedded code (message payloads
elided; only the exception class matters for the properties here). -/
inductive PyErr where
  | typeError
  | valueError
  | keyError
  | indexError
  | fileNotFoundError
deriving DecidableEq, Repr

/-- Python runtime values that flow through the config store: scalars
(int, float, str) and (possibly nested) lists.  Floats are modelled as
rationals; only their identity, not IEEE rounding, matters here. -/
inductive PyVal where
  | int (n : Int)
  | float (q : Rat)
  | str (s : String)
  | list (xs : List PyVal)

/-- Python `sep.join(strings)`. -/
def py_join (sep : String) : List String → String
  | [] => ""
  | [x] => x
  | x :: y :: xs => x ++ sep ++ py_join sep (y :: xs)

/-- Split a character stream at every occurrence of `sep`
(like Python `str.split(sep)` for a one-character separator). -/
def splitOnChar (sep : Char) : List Char → List (List Char)
  | [] => [[]]
  | c :: cs =>
    let r := splitOnChar sep cs
    if c = sep then [] :: r
    else
      match r with
      | [] => [[c]]
      | l :: ls => (c :: l) :: ls

/-- Python `file_content.split("\n")` (mdconfig.py line 265). -/
def py_split_newlines (s : String) : List String :=
  (splitOnChar (Char.ofNat 10) s.data).map String.mk

/-- Drop leading and trailing spaces (models Python `str.strip()`;
other whitespace kinds are not needed by the embedded code paths). -/
def trimSpaces (l : List Char) : List Char :=
  ((l.dropWhile (fun c => c = ' ')).reverse.dropWhile (fun c => c = ' ')).reverse

def pyStrip (s : String) : String :=
  String.mk (trimSpaces s.data)

/-- Accumulate the numeric value of a digit string; `none` on any
non-digit character. -/
def digitsVal : List Char → Nat → Option Nat
  | [], acc => some acc
  | c :: cs, acc =>
      if c.isDigit then digitsVal cs (acc * 10 + (c.toNat - 48)) else none

def digitsToNat : List Char → Option Nat
  | [] => none
  | cs => digitsVal cs 0

/-- Python `int(string)`: optional sign then decimal digits, surrounding
whitespace stripped (underscores and other bases are elided; they do not
occur in the configurations considered here). -/
def pyIntOfStr (s0 : String) : Option Int :=
  match (pyStrip s0).data with
  | '-' :: cs => (digitsToNat cs).map (fun n => -(n : Int))
  | '+' :: cs => (digitsToNat cs).map (fun n => (n : Int))
  | cs => (digitsToNat cs).map (fun n => (n : Int))

/-- Python `float(string)`: optional sign, integer part, optional
fractional part (exponent notation, inf and nan elided). -/
def pyFloatOfStr (s0 : String) : Option Rat :=
  let l := trimSpaces s0.data
  let sb : Int × List Char :=
    match l with
    | '-' :: cs => (-1, cs)
    | '+' :: cs => (1, cs)
    | cs => (1, cs)
  match splitOnChar '.' sb.2 with
  | [ip] => (digitsToNat ip).map (fun n => ((sb.1 * n : Int) : Rat))
  | [ip, fp] =>
      if ip = [] ∧ fp = [] then none
      else
        match (if ip = [] then some 0 else digitsToNat ip),
              (if fp = [] then some 0 else digitsToNat fp) with
        | some a, some b =>
            some ((sb.1 : Rat) * ((a : Rat) + (b : Rat) / ((10 : Rat) ^ fp.length)))
        | _, _ => none
  | _ => none

/-- Python `int(float)` truncates toward zero. -/
def ratTrunc (q : Rat) : Int :=
  if 0 ≤ q then q.floor else q.ceil

/-- Rendering of a float value (Python `str(float)`); modelled exactly
for integral values, which are the only floats serialized in the
properties below.  Non-integral rationals are rendered as `num/den`. -/
def floatRepr (q : Rat) : String :=
  if q.den = 1 then toString q.num ++ ".0"
  else toString q.num ++ "/" ++ toString q.den

/-- String rendering of a Python value (`repr` for elements inside a
list, which quotes strings). -/
def pyRepr : PyVal → String
  | .int n => toString n
  | .float q => floatRepr q
  | .str s => "\x27" ++ s ++ "\x27"
  | .list xs => "[" ++ py_join ", " (xs.attach.map (fun x => pyRepr x.1)) ++ "]"
decreasing_by
  have h := List.sizeOf_lt_of_mem x.2
  simp only [PyVal.list.sizeOf_spec]
  omega

/-- Python `str(value)`. -/
def pyStr : PyVal → String
  | .int n => toString n
  | .float q => floatRepr q
  | .str s => s
  | .list xs => pyRepr (.list xs)

/-- The element types a `TypedFlagChangeList` can declare
(mdconfig.py uses `str`, `int` and `float` as `dtype`). -/
inductive DType where
  | str
  | int
  | float
deriving DecidableEq, Repr

/-- Python `int(value)` on a runtime value. -/
def dtype_int : PyVal → Except PyErr PyVal
  | .int n => .ok (.int n)
  | .float q => .ok (.int (ratTrunc q))
  | .str s =>
      match pyIntOfStr s with
      | some n => .ok (.int n)
      | none => .error .valueError
  | .list _ => .error .typeError

/-- Python `float(value)` on a runtime value. -/
def dtype_float : PyVal → Except PyErr PyVal
  | .int n => .ok (.float (n : Rat))
  | .float q => .ok (.float q)
  | .str s =>
      match pyFloatOfStr s with
      | some q => .ok (.float q)
      | none => .error .valueError
  | .list _ => .error .typeError

/-- Applying the declared `dtype` to a value, i.e. the call
`self._dtype(value)` in `TypedFlagChangeList._convert_type`
(mdconfig.py lines 76-79).  `str(value)` never fails. -/
def DType.conv : DType → PyVal → Except PyErr PyVal
  | .str, v => .ok (.str (pyStr v))
  | .int, v => dtype_int v
  | .float, v => dtype_float v

/-- Does `getattr(val, "__len__", None)` find a length?  Strings and
lists have `__len__`; ints and floats do not (mdconfig.py lines 65, 155). -/
def has_len : PyVal → Bool
  | .str _ => true
  | .list _ => true
  | .int _ => false
  | .float _ => false

/-- Python `val[0]`: first character of a string or first element of a
list; raises IndexError when empty. -/
def py_getitem0 : PyVal → Except PyErr PyVal
  | .str s =>
      match s.data with
      | [] => .error .indexError
      | c :: _ => .ok (.str (String.mk [c]))
  | .list xs =>
      match xs with
      | [] => .error .indexError
      | v :: _ => .ok v
  | .int _ => .error .typeError
  | .float _ => .error .typeError

/-- `TypedFlagChangeList.__init__` lines 65-72: a value without
`__len__` is wrapped as the only item, a string is also wrapped whole,
and a list is taken elementwise. -/
def wrap_scalar : PyVal → List PyVal
  | .int n => [.int n]
  | .float q => [.float q]
  | .str s => [.str s]
  | .list xs => xs

/-- Elementwise type conversion performed by
`TypedFlagChangeList.__init__` (line 73); fails at the first element
that cannot be converted. -/
def convert_elems (dt : DType) : List PyVal → Except PyErr (List PyVal)
  | [] => .ok []
  | v :: vs =>
      match dt.conv v with
      | .error e => .error e
      | .ok tv =>
          match convert_elems dt vs with
          | .error e => .error e
          | .ok rest => .ok (tv :: rest)

/-- `TypedFlagChangeList`: the backing list `_data` (all elements
converted to `_dtype`) and the `_changed` flag of `FlagChangeList`. -/
structure TypedFlagChangeList where
  data : List PyVal
  dtype : DType
  changed : Bool

/-- `TypedFlagChangeList(data=d, dtype=dt)` (mdconfig.py lines 63-74):
wrap scalars, convert every element, start with `_changed = False`. -/
def TypedFlagChangeList.init (dt : DType) (d : PyVal) :
    Except PyErr TypedFlagChangeList :=
  match convert_elems dt (wrap_scalar d) with
  | .error e => .error e
  | .ok typed => .ok { data := typed, dtype := dt, changed := false }

/-- `TypedFlagChangeList.__setitem__` (lines 81-84): convert the new
value first, then store it and set `_changed = True`.  A failing
conversion or an out-of-range index leaves the list untouched.
(Negative Python indices are not modelled.) -/
def TypedFlagChangeList.setitem (l : TypedFlagChangeList) (i : Nat)
    (v : PyVal) : Except PyErr TypedFlagChangeList :=
  match l.dtype.conv v with
  | .error e => .error e
  | .ok tv =>
      if i < l.data.length then
        .ok { l with data := l.data.set i tv, changed := true }
      else .error .indexError

/-- An entry of `LineBasedMDConfig._config`: either a
`TypedFlagChangeList` container or a bare typed scalar (the latter is
what the singleton coercion rules produce). -/
inductive ConfigValue where
  | list (l : TypedFlagChangeList)
  | scalar (v : PyVal)

/-- `getattr(v, "changed", False)` (mdconfig.py line 253): scalars have
no `changed` attribute and count as unchanged. -/
def getattr_changed : ConfigValue → Bool
  | .list l => l.changed
  | .scalar _ => false

/-- `convert_len1_list_or_singleton` (mdconfig.py lines 151-158): a
value without `__len__` is converted directly, anything else has its
first item converted. -/
def convert_len1_list_or_singleton (dt : DType) (val : PyVal) :
    Except PyErr PyVal :=
  if has_len val = false then dt.conv val
  else
    match py_getitem0 val with
    | .error e => .error e
    | .ok v0 => dt.conv v0

/-- Python-dict style update on an association list: replacing the value
of an existing key keeps its position, a new key is appended. -/
def dict_update {α : Type} (d : List (String × α)) (k : String) (v : α) :
    List (String × α) :=
  if d.any (fun p => p.1 == k) then
    d.map (fun p => if p.1 == k then (k, v) else p)
  else d ++ [(k, v)]

/-- Python-dict lookup on an association list. -/
def dict_get {α : Type} (d : List (String × α)) (k : String) : Option α :=
  match d.find? (fun p => p.1 == k) with
  | none => none
  | some p => some p.2

/-- The filesystem, modelled as a path → file-content table. -/
abbrev FS := List (String × String)

def FS.read (fs : FS) (p : String) : Option String :=
  dict_get fs p

def FS.setContent (fs : FS) (p : String) (c : String) : FS :=
  dict_update fs p c

/-- `os.path.exists` / `os.path.isfile` (the model holds only regular
files, so the two coincide). -/
def FS.pathExists (fs : FS) (p : String) : Bool :=
  fs.any (fun q => q.1 == p)

/-- `os.path.abspath`: paths are modelled as already-canonical
identifiers, so this is the identity. -/
def os_path_abspath (p : String) : String := p

/-- The coercion rule resolved for one key by the type dispatch
(mdconfig.py lines 160-190): a multi-value `TypedFlagChangeList` rule
with a declared dtype, or a singleton rule built on
`convert_len1_list_or_singleton`. -/
inductive CoercionRule where
  | multi (dt : DType)
  | singleton (dt : DType)

/-- The class-level declarations of a `LineBasedMDConfig` subclass
(mdconfig.py lines 118-127); the base class defaults are empty key
lists, separator `" = "` and inter-value joiner `" "`.
`_SPECIAL_PARAM_DISPATCH` is `{}` in the base class and is not modelled. -/
structure ClassConfig where
  FLOAT_PARAMS : List String := []
  FLOAT_SINGLETON_PARAMS : List String := []
  INT_PARAMS : List String := []
  INT_SINGLETON_PARAMS : List String := []
  KEY_VALUE_SEPARATOR : String := " = "
  INTER_VALUE_CHAR : String := " "

/-- `_construct_type_dispatch` (lines 150-190): the dispatch dict is
built by successive `update` calls (float, float-singleton, int,
int-singleton), so a key in several lists gets the latest rule; keys in
no list fall back to the str-typed `TypedFlagChangeList` default. -/
def type_dispatch (cls : ClassConfig) (key : String) : CoercionRule :=
  if cls.INT_SINGLETON_PARAMS.contains key then .singleton .int
  else if cls.INT_PARAMS.contains key then .multi .int
  else if cls.FLOAT_SINGLETON_PARAMS.contains key then .singleton .float
  else if cls.FLOAT_PARAMS.contains key then .multi .float
  else .multi .str

/-- Calling the dispatched rule on a raw value: `self._type_dispatch[key](value)`. -/
def applyRule (r : CoercionRule) (v : PyVal) : Except PyErr ConfigValue :=
  match r with
  | .multi dt =>
      match TypedFlagChangeList.init dt v with
      | .error e => .error e
      | .ok l => .ok (.list l)
  | .singleton dt =>
      match convert_len1_list_or_singleton dt v with
      | .error e => .error e
      | .ok tv => .ok (.scalar tv)

/-- `LineBasedMDConfig`: the subclass declarations, the `_config` table
(a Python dict, hence an ordered association list), the store-level
`_changed` flag and `_original_file`. -/
structure LineBasedMDConfig where
  cls : ClassConfig
  config : List (String × ConfigValue)
  changedFlag : Bool
  original_file : String

/-- The `changed` property (mdconfig.py lines 247-255): the store flag
or any entry whose `changed` attribute (default `False`) is set. -/
def LineBasedMDConfig.changed (s : LineBasedMDConfig) : Bool :=
  s.changedFlag || s.config.any (fun p => getattr_changed p.2)

/-- `__getitem__` (lines 212-213); KeyError on a missing key. -/
def LineBasedMDConfig.getitem (s : LineBasedMDConfig) (key : String) :
    Except PyErr ConfigValue :=
  match dict_get s.config key with
  | none => .error .keyError
  | some v => .ok v

/-- `__setitem__` (lines 215-218): coerce first; only on success store
the typed value and set the store flag.  The pair carries the post-state
together with the exception, if any, because the coercion runs before
any assignment to `self`. -/
def LineBasedMDConfig.setitem (s : LineBasedMDConfig) (key : String)
    (value : PyVal) : LineBasedMDConfig × Option PyErr :=
  match applyRule (type_dispatch s.cls key) value with
  | .error e => (s, some e)
  | .ok tv =>
      ({ s with config := dict_update s.config key tv, changedFlag := true },
       none)

/-- `store[key][i] = v`: `__getitem__` followed by
`TypedFlagChangeList.__setitem__` on the entry.  The Python list is
mutated in place and stays the same object inside `_config`; the pure
model re-stores the updated list under the same key.  The store-level
flag is NOT touched by this path. -/
def LineBasedMDConfig.entry_setitem (s : LineBasedMDConfig) (key : String)
    (i : Nat) (v : PyVal) : LineBasedMDConfig × Option PyErr :=
  match dict_get s.config key with
  | none => (s, some .keyError)
  | some (.scalar _) => (s, some .typeError)
  | some (.list l) =>
      match l.setitem i v with
      | .error e => (s, some e)
      | .ok l2 =>
          ({ s with config := dict_update s.config key (.list l2) }, none)

/-- The line loop of `parse` (mdconfig.py lines 265-280): feed every
line to `_parse_line`, warn (counted here) whenever a key is already in
the accumulated dict, and let the later occurrence win via dict update.
`_parse_line` returns at most one key/raw-values pair per line. -/
def parseLinesAccum
    (parseLine : String → Except PyErr (Option (String × List String))) :
    List String → List (String × List String) → Nat →
    Except PyErr (List (String × List String) × Nat)
  | [], acc, w => .ok (acc, w)
  | line :: rest, acc, w =>
      match parseLine line with
      | .error e => .error e
      | .ok none => parseLinesAccum parseLine rest acc w
      | .ok (some (k, vs)) =>
          parseLinesAccum parseLine rest (dict_update acc k vs)
            (if acc.any (fun p => p.1 == k) then w + 1 else w)

/-- The dict comprehension of `parse` (lines 282-283): run every raw
value list (a Python list of strings) through the dispatched rule, in
table order; the whole parse fails at the first failing coercion. -/
def convertParsed (cls : ClassConfig) :
    List (String × List String) → Except PyErr (List (String × ConfigValue))
  | [] => .ok []
  | p :: rest =>
      match applyRule (type_dispatch cls p.1) (.list (p.2.map PyVal.str)) with
      | .error e => .error e
      | .ok cv =>
          match convertParsed cls rest with
          | .error e => .error e
          | .ok tail => .ok ((p.1, cv) :: tail)

/-- `parse` applied to a given file content: line accumulation with
duplicate warnings, then type conversion.  Returns the new `_config`
table and the number of duplicate-key warnings logged. -/
def parse_content (cls : ClassConfig)
    (parseLine : String → Except PyErr (Option (String × List String)))
    (content : String) :
    Except PyErr (List (String × ConfigValue) × Nat) :=
  match parseLinesAccum parseLine (py_split_newlines content) [] 0 with
  | .error e => .error e
  | .ok pw =>
      match convertParsed cls pw.1 with
      | .error e => .error e
      | .ok config => .ok (config, pw.2)

/-- `LineBasedMDConfig.parse` (lines 257-284): read `original_file`,
build the new table, and only then commit it and reset `_changed`;
a failure anywhere leaves the store untouched. -/
def LineBasedMDConfig.parse
    (parseLine : String → Except PyErr (Option (String × List String)))
    (s : LineBasedMDConfig) (fs : FS) :
    Except PyErr (LineBasedMDConfig × Nat) :=
  match fs.read s.original_file with
  | none => .error .fileNotFoundError
  | some content =>
      match parse_content s.cls parseLine content with
      | .error e => .error e
      | .ok cw => .ok ({ s with config := cw.1, changedFlag := false }, cw.2)

/-- The `original_file` setter (lines 237-245): reject a path that does
not name an existing file, otherwise record the path and re-parse.
Note the source sets `self._original_file` before calling `parse()`, so
on a parse failure the path is already updated. -/
def LineBasedMDConfig.set_original_file
    (parseLine : String → Except PyErr (Option (String × List String)))
    (s : LineBasedMDConfig) (fs : FS) (value : String) :
    LineBasedMDConfig × Option PyErr :=
  if FS.pathExists fs (os_path_abspath value) then
    match LineBasedMDConfig.parse parseLine
        { s with original_file := os_path_abspath value } fs with
    | .error e => ({ s with original_file := os_path_abspath value }, some e)
    | .ok tw => (tw.1, none)
  else (s, some .valueError)

/-- `LineBasedMDConfig.__init__` (lines 140-148): empty table, clean
flag, then the `original_file` setter does the initial parse.  (The
placeholder path is never observable: the setter overwrites it.) -/
def LineBasedMDConfig.mk_from_file (cls : ClassConfig)
    (parseLine : String → Except PyErr (Option (String × List String)))
    (fs : FS) (original_file : String) : LineBasedMDConfig × Option PyErr :=
  LineBasedMDConfig.set_original_file parseLine
    { cls := cls, config := [], changedFlag := false, original_file := "" }
    fs original_file

/-- One output line of `write` (lines 303-312): `key` plus the
separator; a container contributes its joined elements when non-empty
and nothing otherwise, while a singleton value (an int or float, which
has no `len`, so the `try` raises TypeError) contributes `str(value)`. -/
def serialize_line (cls : ClassConfig) (key : String) (v : ConfigValue) :
    String :=
  let line := key ++ cls.KEY_VALUE_SEPARATOR
  match v with
  | .list l =>
      if l.data.length > 0 then
        line ++ py_join cls.INTER_VALUE_CHAR (l.data.map pyStr)
      else line
  | .scalar v => line ++ pyStr v

/-- The `lines` loop of `write`, over the table in its iteration order. -/
def serialize_config (cls : ClassConfig) :
    List (String × ConfigValue) → List String
  | [] => []
  | p :: rest => serialize_line cls p.1 p.2 :: serialize_config cls rest

/-- `LineBasedMDConfig.write` (lines 286-316): refuse an existing
target unless `overwrite`; copy the original file verbatim when the
store is unchanged; otherwise serialize the table, joining the lines
with a newline.  The method never assigns to `self`, so the returned
store is the input store. -/
def LineBasedMDConfig.write (s : LineBasedMDConfig) (fs : FS)
    (outfile : String) (overwrite : Bool) :
    Except PyErr (FS × LineBasedMDConfig) :=
  if FS.pathExists fs (os_path_abspath outfile) && !overwrite then
    .error .valueError
  else if !s.changed then
    match fs.read s.original_file with
    | none => .error .fileNotFoundError
    | some content => .ok (fs.setContent (os_path_abspath outfile) content, s)
  else
    .ok (fs.setContent (os_path_abspath outfile)
          (py_join "\n" (serialize_config s.cls s.config)), s)

/-- A concrete format-specific `_parse_line` used to instantiate the
theorems below: no `=` means a comment line, `key = v1 v2 ...` is a
key/values pair (key stripped, empty value tokens dropped), more than
one `=` is a parse error. -/
def exampleParseLine (line : String) :
    Except PyErr (Option (String × List String)) :=
  match splitOnChar '=' line.data with
  | [_] => .ok none
  | [k, v] => .ok (some (String.mk (trimSpaces k),
      ((splitOnChar ' ' v).filter (fun l => l ≠ [])).map String.mk))
  | _ => .error .valueError

/-- A subclass declaring `x` as a multi-value int param. -/
def clsX : ClassConfig := { INT_PARAMS := ["x"] }

/-- A subclass declaring `k` as a singleton int param. -/
def clsK : ClassConfig := { INT_SINGLETON_PARAMS := ["k"] }

/-- A store bound (notionally) to file `fK`, with an empty table. -/
def storeK : LineBasedMDConfig :=
  { cls := clsK, config := [], changedFlag := false, original_file := "fK" }

def fs1 : FS := [("f1", "x = 1")]

/-- The store obtained by parsing `fs1`'s file `f1` with `clsX`. -/
def store1 : LineBasedMDConfig :=
  { cls := clsX,
    config := [("x", .list { data := [.int 1], dtype := .int, changed := false })],
    changedFlag := false, original_file := "f1" }

def fs4 : FS := [("f4", "x = 1\nx = 2")]

def store4 : LineBasedMDConfig :=
  { cls := clsX, config := [], changedFlag := false, original_file := "f4" }

def fs10 : FS := [("f10", "k = ")]

def store10 : LineBasedMDConfig :=
  { cls := clsK, config := [], changedFlag := false, original_file := "f10" }

/-- A mutated store (flag set) holding a container, an empty container
and a singleton scalar, for the serialization property. -/
def store6 : LineBasedMDConfig :=
  { cls := {},
    config := [("a", .list { data := [.str "1", .str "2"], dtype := .str, changed := false }),
               ("b", .list { data := [], dtype := .str, changed := false }),
               ("c", .scalar (.int 7))],
    changedFlag := true, original_file := "f6" }

def fs7 : FS := [("out7", "old content")]

def fs5 : FS := [("f5", "x = 3")]

/-- A store whose entry and store-level flags are both dirty, for the
reset-on-reparse property. -/
def store5 : LineBasedMDConfig :=
  { cls := clsX,
    config := [("x", .list { data := [.int 9], dtype := .int, changed := true })],
    changedFlag := true, original_file := "f1" }


theorem dict_find_map_update {α : Type} (d : List (String × α)) (k : String)
    (v : α) :
    (d.map (fun p => if p.1 == k then (k, v) else p)).find?
        (fun p => p.1 == k) =
      if d.any (fun p => p.1 == k) then some (k, v) else none := by
  induction d with
  | nil => simp
  | cons q d ih =>
      by_cases hq : (q.1 == k) = true
      · rw [List.map_cons, if_pos hq]
        simp only [List.find?, List.any_cons, hq, Bool.true_or,
          beq_self_eq_true]
        simp
      · have hq' : (q.1 == k) = false := by
          simp only [Bool.not_eq_true] at hq
          exact hq
        rw [List.map_cons, if_neg hq]
        simp only [List.find?, List.any_cons, hq', Bool.false_or]
        exact ih

theorem dict_find_append {α : Type} (d : List (String × α)) (k : String)
    (v : α) (h : d.any (fun p => p.1 == k) = false) :
    (d ++ [(k, v)]).find? (fun p => p.1 == k) = some (k, v) := by
  induction d with
  | nil =>
      simp only [List.nil_append]
      rw [List.find?_cons_of_pos _ (by simp)]
  | cons q d ih =>
      simp only [List.any_cons, Bool.or_eq_false_iff] at h
      rw [List.cons_append, List.find?_cons_of_neg _ (by simp [h.1])]
      exact ih h.2

theorem dict_get_update {α : Type} (d : List (String × α)) (k : String)
    (v : α) : dict_get (dict_update d k v) k = some v := by
  unfold dict_get dict_update
  by_cases h : d.any (fun p => p.1 == k)
  · rw [if_pos h, dict_find_map_update, if_pos h]
  · have h' : d.any (fun p => p.1 == k) = false := by
      simp only [Bool.not_eq_true] at h
      exact h
    rw [if_neg h, dict_find_append d k v h']

theorem dict_update_any {α : Type} (d : List (String × α)) (k : String)
    (v : α) : (dict_update d k v).any (fun p => p.1 == k) = true := by
  have h := dict_get_update d k v
  unfold dict_get at h
  rcases hf : (dict_update d k v).find? (fun p => p.1 == k) with _ | p
  · rw [hf] at h
    exact absurd h (by simp)
  · have hm := List.mem_of_find?_eq_some hf
    have hp := List.find?_some hf
    exact List.any_eq_true.mpr ⟨p, hm, hp⟩

theorem dict_update_mem {α : Type} (d : List (String × α)) (k : String)
    (v : α) : (k, v) ∈ dict_update d k v := by
  unfold dict_update
  by_cases h : d.any (fun p => p.1 == k)
  · rw [if_pos h]
    rcases List.any_eq_true.mp h with ⟨p, hp, hpk⟩
    exact List.mem_map.mpr ⟨p, hp, by simp [hpk]⟩
  · rw [if_neg h]
    exact List.mem_append_right _ (by simp)

theorem tfcl_setitem_changed (l : TypedFlagChangeList) (i : Nat) (v : PyVal)
    (l2 : TypedFlagChangeList) (h : l.setitem i v = .ok l2) :
    l2.changed = true := by
  unfold TypedFlagChangeList.setitem at h
  split at h
  · exact absurd h (by simp)
  · split at h
    · cases h
      rfl
    · exact absurd h (by simp)

theorem applyRule_fresh (r : CoercionRule) (v : PyVal) (cv : ConfigValue)
    (h : applyRule r v = .ok cv) : getattr_changed cv = false := by
  unfold applyRule at h
  split at h
  · split at h
    · exact absurd h (by simp)
    · cases h
      rename_i dt l hinit
      unfold TypedFlagChangeList.init at hinit
      split at hinit
      · exact absurd hinit (by simp)
      · cases hinit
        rfl
  · split at h
    · exact absurd h (by simp)
    · cases h
      rfl

theorem convertParsed_fresh (cls : ClassConfig)
    (parsed : List (String × List String))
    (config : List (String × ConfigValue))
    (h : convertParsed cls parsed = .ok config) :
    ∀ p ∈ config, getattr_changed p.2 = false := by
  induction parsed generalizing config with
  | nil =>
      unfold convertParsed at h
      cases h
      intro p hp
      exact absurd hp (by simp)
  | cons q rest ih =>
      unfold convertParsed at h
      rcases hr : applyRule (type_dispatch cls q.1) (.list (q.2.map PyVal.str))
          with e | cv
      · simp only [hr] at h
        exact Except.noConfusion h
      · simp only [hr] at h
        rcases ht : convertParsed cls rest with e | tail
        · simp only [ht] at h
          exact Except.noConfusion h
        · simp only [ht] at h
          cases h
          intro p hp
          rcases List.mem_cons.mp hp with hp | hp
          · subst hp
            exact applyRule_fresh _ _ _ hr
          · exact ih tail ht p hp

/-- C2: for every store, the observable `changed` property is true iff
the store-level flag is true or some entry's own `changed` flag is true;
and mutating a single element of an entry's list (via
`store[key][i] = v`, without reassigning the entry) makes
`store.changed` true. -/
theorem changed_iff_flag_or_entry :
    (∀ s : LineBasedMDConfig,
       s.changed = true ↔
         (s.changedFlag = true ∨ ∃ p ∈ s.config, getattr_changed p.2 = true)) ∧
    (∀ (s : LineBasedMDConfig) (key : String) (i : Nat) (v : PyVal)
       (s2 : LineBasedMDConfig),
       LineBasedMDConfig.entry_setitem s key i v = (s2, none) →
       s2.changed = true) := by
  constructor
  · intro s
    unfold LineBasedMDConfig.changed
    simp [List.any_eq_true]
  · intro s key i v s2 h
    unfold LineBasedMDConfig.entry_setitem at h
    rcases hg : dict_get s.config key with _ | cv <;> simp only [hg] at h
    · simp at h
    · rcases cv with l | v0
      · rcases hset : l.setitem i v with e | l2 <;> simp only [hset] at h
        · simp at h
        · injection h with h1 h2
          subst h1
          have hany : ((dict_update s.config key (.list l2)).any
              (fun p => getattr_changed p.2)) = true :=
            List.any_eq_true.mpr ⟨(key, .list l2), dict_update_mem _ _ _,
              by simpa using tfcl_setitem_changed l i v l2 hset⟩
          unfold LineBasedMDConfig.changed
          simp [hany]
      · simp at h

/-- C2 witness: mutating element 0 of the container bound to `x` in a
freshly parsed store makes the store report `changed`. -/
theorem changed_iff_flag_or_entry_witness :
    ({ store1 with
       config := [("x", .list { data := [.int 7], dtype := .int, changed := true })]
     } : LineBasedMDConfig).changed = true :=
  changed_iff_flag_or_entry.2 store1 "x" 0 (.int 7) _ rfl

/-- C3 counterexample: with `k` declared singleton-int, assigning the
two-element sequence `[5, 6]` does NOT raise TypeCoercionError — the
coercion silently takes the first element and stores the scalar `5`. -/
theorem singleton_multielem_no_error :
    LineBasedMDConfig.setitem storeK "k" (.list [.int 5, .int 6]) =
      ({ storeK with config := [("k", .scalar (.int 5))], changedFlag := true },
       none) := rfl

/-- C3 amended: for a key dispatched to a singleton family, assigning a
bare scalar (no `__len__`), a non-empty sequence, or a non-empty string
stores a single typed scalar — the coercion of the value itself, of its
first element, or of its first character respectively; extra elements of
a multi-element sequence are silently discarded, with no error. -/
theorem singleton_assignment_semantics (s : LineBasedMDConfig) (key : String)
    (dt : DType) (h : type_dispatch s.cls key = .singleton dt) :
    (∀ v tv, has_len v = false → dt.conv v = .ok tv →
       LineBasedMDConfig.setitem s key v =
         ({ s with config := dict_update s.config key (.scalar tv),
                   changedFlag := true }, none)) ∧
    (∀ x xs tv, dt.conv x = .ok tv →
       LineBasedMDConfig.setitem s key (.list (x :: xs)) =
         ({ s with config := dict_update s.config key (.scalar tv),
                   changedFlag := true }, none)) ∧
    (∀ c cs tv, dt.conv (.str (String.mk [c])) = .ok tv →
       LineBasedMDConfig.setitem s key (.str (String.mk (c :: cs))) =
         ({ s with config := dict_update s.config key (.scalar tv),
                   changedFlag := true }, none)) := by
  refine ⟨fun v tv hlen hconv => ?_, fun x xs tv hconv => ?_,
    fun c cs tv hconv => ?_⟩
  · unfold LineBasedMDConfig.setitem
    simp [h, applyRule, convert_len1_list_or_singleton, hlen, hconv]
  · unfold LineBasedMDConfig.setitem
    simp [h, applyRule, convert_len1_list_or_singleton, has_len, py_getitem0,
      hconv]
  · unfold LineBasedMDConfig.setitem
    simp [h, applyRule, convert_len1_list_or_singleton, has_len, py_getitem0,
      hconv]

/-- C3 witness: on the singleton-int key `k`, assigning the int `5`, the
string `"5"` and the one-element list `[7]` each store a bare int
scalar. -/
theorem singleton_assignment_semantics_witness :
    LineBasedMDConfig.setitem storeK "k" (.int 5) =
      ({ storeK with config := [("k", .scalar (.int 5))], changedFlag := true },
       none) ∧
    LineBasedMDConfig.setitem storeK "k" (.str "5") =
      ({ storeK with config := [("k", .scalar (.int 5))], changedFlag := true },
       none) ∧
    LineBasedMDConfig.setitem storeK "k" (.list [.int 7]) =
      ({ storeK with config := [("k", .scalar (.int 7))], changedFlag := true },
       none) :=
  ⟨(singleton_assignment_semantics storeK "k" .int rfl).1 (.int 5) (.int 5)
      rfl rfl,
   (singleton_assignment_semantics storeK "k" .int rfl).2.2 '5' [] (.int 5)
      rfl,
   (singleton_assignment_semantics storeK "k" .int rfl).2.1 (.int 7) []
      (.int 7) rfl⟩

/-- C7: writing with `overwrite = false` onto an existing path fails
(the `ValueError` raised at mdconfig.py line 296, the spec's
FileExistsError), and no filesystem is produced — the target's content
is untouched. -/
theorem write_no_overwrite_error (s : LineBasedMDConfig) (fs : FS)
    (outfile : String)
    (h : FS.pathExists fs (os_path_abspath outfile) = true) :
    LineBasedMDConfig.write s fs outfile false = .error .valueError ∧
    ∀ fs2 s2, LineBasedMDConfig.write s fs outfile false ≠ .ok (fs2, s2) := by
  have hw : LineBasedMDConfig.write s fs outfile false = .error .valueError := by
    unfold LineBasedMDConfig.write
    simp [h]
  exact ⟨hw, fun fs2 s2 hok => by rw [hw] at hok; exact Except.noConfusion hok⟩

/-- C7 witness: `out7` already exists in `fs7`, so the write fails. -/
theorem write_no_overwrite_error_witness :
    LineBasedMDConfig.write storeK fs7 "out7" false = .error .valueError :=
  (write_no_overwrite_error storeK fs7 "out7" rfl).1

/-- C8: if the coercion rule raises during `store[key] = value`, the
store is exactly as before the call: same entry for the key, same
store-level flag, same observable `changed`. -/
theorem setitem_error_preserves_state (s : LineBasedMDConfig) (key : String)
    (v : PyVal) (s2 : LineBasedMDConfig) (e : PyErr)
    (h : LineBasedMDConfig.setitem s key v = (s2, some e)) :
    s2 = s ∧
    LineBasedMDConfig.getitem s2 key = LineBasedMDConfig.getitem s key ∧
    s2.changedFlag = s.changedFlag ∧ s2.changed = s.changed := by
  unfold LineBasedMDConfig.setitem at h
  rcases hr : applyRule (type_dispatch s.cls key) v with e2 | tv <;>
    simp only [hr] at h
  · injection h with h1 h2
    subst h1
    exact ⟨rfl, rfl, rfl, rfl⟩
  · simp at h

/-- C8 witness: `int("abc"[0])` fails, so assigning `"abc"` to the
singleton-int key `k` leaves the (empty) store untouched. -/
theorem setitem_error_preserves_state_witness :
    storeK = storeK ∧
    LineBasedMDConfig.getitem storeK "k" = LineBasedMDConfig.getitem storeK "k" ∧
    storeK.changedFlag = storeK.changedFlag ∧
    storeK.changed = storeK.changed :=
  setitem_error_preserves_state storeK "k" (.str "abc") storeK .valueError rfl

/-- C9: `write` never mutates the store: whenever it returns, the store
component of the result is the input store, with table, flags,
`original_file` and the observable `changed` all unchanged. -/
theorem write_preserves_store (s : LineBasedMDConfig) (fs : FS)
    (outfile : String) (overwrite : Bool) (fs2 : FS) (s2 : LineBasedMDConfig)
    (h : LineBasedMDConfig.write s fs outfile overwrite = .ok (fs2, s2)) :
    s2 = s ∧ s2.config = s.config ∧ s2.changedFlag = s.changedFlag ∧
    s2.original_file = s.original_file ∧ s2.changed = s.changed := by
  unfold LineBasedMDConfig.write at h
  split at h
  · exact Except.noConfusion h
  · split at h
    · rcases hr : fs.read s.original_file with _ | content <;>
        simp only [hr] at h
      · exact Except.noConfusion h
      · injection h with h1
        injection h1 with ha hb
        subst hb
        exact ⟨rfl, rfl, rfl, rfl, rfl⟩
    · injection h with h1
      injection h1 with ha hb
      subst hb
      exact ⟨rfl, rfl, rfl, rfl, rfl⟩

/-- C9 witness: a modified store (`store6.changed = true`) written out
is returned unchanged, still reporting `changed`. -/
theorem write_preserves_store_witness :
    store6 = store6 ∧ store6.config = store6.config ∧
    store6.changedFlag = store6.changedFlag ∧
    store6.original_file = store6.original_file ∧
    store6.changed = store6.changed :=
  write_preserves_store store6 [] "out6" false
    [("out6", "a = 1 2\nb = \nc = 7")] store6 rfl

theorem os_path_abspath_eq (p : String) : os_path_abspath p = p := rfl

theorem fs_read_setContent (fs : FS) (p c : String) :
    FS.read (FS.setContent fs p c) p = some c :=
  dict_get_update fs p c

theorem fs_pathExists_setContent (fs : FS) (p c : String) :
    FS.pathExists (FS.setContent fs p c) p = true :=
  dict_update_any fs p c

theorem fs_pathExists_of_read {fs : FS} {p c : String}
    (h : FS.read fs p = some c) : FS.pathExists fs p = true := by
  unfold FS.read dict_get at h
  rcases hf : fs.find? (fun q => q.1 == p) with _ | q
  · rw [hf] at h
    exact Option.noConfusion h
  · have hm := List.mem_of_find?_eq_some hf
    have hp := @List.find?_some _ (fun r => r.1 == p) q fs hf
    exact List.any_eq_true.mpr ⟨q, hm, hp⟩

/-- C6: when the store is changed, `write` produces exactly the config
serialized entry by entry — `key`, the subclass separator, then the
values joined by the inter-value joiner — with empty containers yielding
only `key` plus separator, singletons yielding `key`, separator and the
value's string form, and the lines joined by a newline as the file's
whole content; the base-class defaults are `" = "` and `" "`. -/
theorem write_changed_serializes (s : LineBasedMDConfig) (fs : FS)
    (outfile : String) (overwrite : Bool)
    (hch : s.changed = true)
    (hok : FS.pathExists fs (os_path_abspath outfile) = false ∨
           overwrite = true) :
    LineBasedMDConfig.write s fs outfile overwrite =
      .ok (FS.setContent fs (os_path_abspath outfile)
            (py_join "\n" (serialize_config s.cls s.config)), s) ∧
    (∀ key l, l.data = [] →
       serialize_line s.cls key (.list l) =
         key ++ s.cls.KEY_VALUE_SEPARATOR) ∧
    (∀ key l, l.data ≠ [] →
       serialize_line s.cls key (.list l) =
         (key ++ s.cls.KEY_VALUE_SEPARATOR) ++
           py_join s.cls.INTER_VALUE_CHAR (l.data.map pyStr)) ∧
    (∀ key v, serialize_line s.cls key (.scalar v) =
       (key ++ s.cls.KEY_VALUE_SEPARATOR) ++ pyStr v) ∧
    ({} : ClassConfig).KEY_VALUE_SEPARATOR = " = " ∧
    ({} : ClassConfig).INTER_VALUE_CHAR = " " := by
  refine ⟨?_, ?_, ?_, fun key v => rfl, rfl, rfl⟩
  · unfold LineBasedMDConfig.write
    rcases hok with h | h
    · simp [h, hch]
    · simp [h, hch]
  · intro key l hl
    unfold serialize_line
    simp [hl]
  · intro key l hl
    unfold serialize_line
    have hpos : l.data.length > 0 := List.length_pos.mpr hl
    simp [hpos]

/-- C6 witness: a dirty store with a two-element container, an empty
container and an int singleton serializes to the expected three lines. -/
theorem write_changed_serializes_witness :
    LineBasedMDConfig.write store6 [] "out6" false =
      .ok ([("out6", "a = 1 2\nb = \nc = 7")], store6) :=
  (write_changed_serializes store6 [] "out6" false rfl (Or.inl rfl)).1

/-- C10: if a singleton-declared key is parsed with an empty value list
(key present without value, which the `_parse_line` contract allows),
the singleton rule indexes `val[0]` of an empty list and the whole parse
fails with IndexError — an error outside the spec's taxonomy. -/
theorem parse_singleton_empty_index_error
    (parseLine : String → Except PyErr (Option (String × List String)))
    (s : LineBasedMDConfig) (fs : FS) (content line key : String) (dt : DType)
    (hdt : type_dispatch s.cls key = .singleton dt)
    (hc : FS.read fs s.original_file = some content)
    (hsplit : py_split_newlines content = [line])
    (hpl : parseLine line = .ok (some (key, []))) :
    LineBasedMDConfig.parse parseLine s fs = .error .indexError := by
  unfold LineBasedMDConfig.parse parse_content
  simp only [hc]
  rw [hsplit]
  simp [parseLinesAccum, hpl, dict_update, convertParsed, hdt, applyRule,
    convert_len1_list_or_singleton, has_len, py_getitem0]

/-- C10 witness: with `k` singleton-int and the file `"k = "` (key
present, no value), parsing fails with IndexError. -/
theorem parse_singleton_empty_index_error_witness :
    LineBasedMDConfig.parse exampleParseLine store10 fs10 =
      .error .indexError :=
  parse_singleton_empty_index_error exampleParseLine store10 fs10
    "k = " "k = " "k" .int rfl rfl rfl rfl

/-- C4: when two lines produce the same key, parse succeeds, logs one
duplicate warning, and the resulting table holds exactly the typed value
of the last occurrence. -/
theorem parse_duplicate_last_wins
    (parseLine : String → Except PyErr (Option (String × List String)))
    (s : LineBasedMDConfig) (fs : FS) (content l1 l2 k : String)
    (vs1 vs2 : List String) (cv2 : ConfigValue)
    (hc : FS.read fs s.original_file = some content)
    (hsplit : py_split_newlines content = [l1, l2])
    (h1 : parseLine l1 = .ok (some (k, vs1)))
    (h2 : parseLine l2 = .ok (some (k, vs2)))
    (hcv : applyRule (type_dispatch s.cls k) (.list (vs2.map PyVal.str)) =
           .ok cv2) :
    LineBasedMDConfig.parse parseLine s fs =
      .ok ({ s with config := [(k, cv2)], changedFlag := false }, 1) ∧
    LineBasedMDConfig.getitem
      { s with config := [(k, cv2)], changedFlag := false } k = .ok cv2 := by
  constructor
  · unfold LineBasedMDConfig.parse parse_content
    simp only [hc]
    rw [hsplit]
    simp [parseLinesAccum, h1, h2, dict_update, convertParsed, hcv]
  · unfold LineBasedMDConfig.getitem dict_get
    simp [List.find?]

/-- C4 witness: the two-line file `"x = 1\nx = 2"` with `x` a
multi-value int param parses to `[2]` with one warning recorded. -/
theorem parse_duplicate_last_wins_witness :
    LineBasedMDConfig.parse exampleParseLine store4 fs4 =
      .ok ({ store4 with
             config := [("x", .list { data := [.int 2], dtype := .int,
                                      changed := false })],
             changedFlag := false }, 1) ∧
    LineBasedMDConfig.getitem
      { store4 with
        config := [("x", .list { data := [.int 2], dtype := .int,
                                 changed := false })],
        changedFlag := false } "x" =
      .ok (.list { data := [.int 2], dtype := .int, changed := false }) :=
  parse_duplicate_last_wins exampleParseLine store4 fs4 "x = 1\nx = 2"
    "x = 1" "x = 2" "x" ["1"] ["2"]
    (.list { data := [.int 2], dtype := .int, changed := false })
    rfl rfl rfl rfl rfl

/-- C5: re-pointing `original_file` at an existing, parseable file
replaces the whole table with the parse of the new file's content and
resets the store-level flag and every entry's flag, so the store no
longer reports `changed` — whatever state (including dirty) it was in. -/
theorem set_original_file_reparses
    (parseLine : String → Except PyErr (Option (String × List String)))
    (s : LineBasedMDConfig) (fs : FS) (value content : String)
    (cfg : List (String × ConfigValue)) (w : Nat)
    (hr : FS.read fs (os_path_abspath value) = some content)
    (hpc : parse_content s.cls parseLine content = .ok (cfg, w)) :
    LineBasedMDConfig.set_original_file parseLine s fs value =
      ({ s with original_file := os_path_abspath value, config := cfg,
                changedFlag := false }, none) ∧
    (cfg.all (fun p => !(getattr_changed p.2))) = true ∧
    ({ s with original_file := os_path_abspath value, config := cfg,
              changedFlag := false } : LineBasedMDConfig).changed = false := by
  have hex : FS.pathExists fs (os_path_abspath value) = true :=
    fs_pathExists_of_read hr
  have hall : ∀ p ∈ cfg, getattr_changed p.2 = false := by
    unfold parse_content at hpc
    rcases hacc : parseLinesAccum parseLine (py_split_newlines content) [] 0
        with e | pw <;> simp only [hacc] at hpc
    · exact Except.noConfusion hpc
    · rcases hcp : convertParsed s.cls pw.1 with e | config2 <;>
        simp only [hcp] at hpc
      · exact Except.noConfusion hpc
      · injection hpc with hpc1
        injection hpc1 with ha hb
        subst ha
        exact convertParsed_fresh s.cls pw.1 _ hcp
  refine ⟨?_, ?_, ?_⟩
  · unfold LineBasedMDConfig.set_original_file
    rw [hex]
    have hp : LineBasedMDConfig.parse parseLine
        { s with original_file := os_path_abspath value } fs =
        .ok ({ s with
                original_file := os_path_abspath value,
                config := cfg,
                changedFlag := false }, w) := by
      unfold LineBasedMDConfig.parse
      simp only [hr, hpc]
    simp [hp]
  · exact List.all_eq_true.mpr (fun p hp => by simp [hall p hp])
  · unfold LineBasedMDConfig.changed
    simp only [Bool.false_or]
    exact List.any_eq_false.mpr (fun p hp => by simp [hall p hp])

/-- C5 witness: a store that is dirty at both levels, re-pointed at the
file `f5` (content `x = 3`), ends up with exactly the parse of `f5` and
a clean `changed`. -/
theorem set_original_file_reparses_witness :
    LineBasedMDConfig.set_original_file exampleParseLine store5 fs5 "f5" =
      ({ store5 with
          original_file := os_path_abspath "f5",
          config := [("x", .list { data := [.int 3], dtype := .int,
                                   changed := false })],
          changedFlag := false }, none) ∧
    (([("x", .list { data := [.int 3], dtype := .int, changed := false })]
        : List (String × ConfigValue)).all
      (fun p => !(getattr_changed p.2))) = true ∧
    ({ store5 with
        original_file := os_path_abspath "f5",
        config := [("x", .list { data := [.int 3], dtype := .int,
                                 changed := false })],
        changedFlag := false } : LineBasedMDConfig).changed = false :=
  set_original_file_reparses exampleParseLine store5 fs5 "f5" "x = 3"
    [("x", .list { data := [.int 3], dtype := .int, changed := false })] 0
    rfl rfl

/-- C1: for a store whose table matches its (unchanged) original file
and whose `changed` is false, a successful `write` copies the original
byte-for-byte to the target, and re-binding a fresh store to the target
reproduces the table exactly, key for key and typed value for typed
value. -/
theorem write_unchanged_round_trip
    (parseLine : String → Except PyErr (Option (String × List String)))
    (s : LineBasedMDConfig) (fs : FS) (content outfile : String)
    (overwrite : Bool) (w : Nat) (fs2 : FS) (s2 : LineBasedMDConfig)
    (horig : FS.read fs s.original_file = some content)
    (htable : parse_content s.cls parseLine content = .ok (s.config, w))
    (hch : s.changed = false)
    (hw : LineBasedMDConfig.write s fs outfile overwrite = .ok (fs2, s2)) :
    FS.read fs2 (os_path_abspath outfile) = some content ∧
    FS.read fs2 (os_path_abspath outfile) = FS.read fs s.original_file ∧
    LineBasedMDConfig.mk_from_file s.cls parseLine fs2
        (os_path_abspath outfile) =
      ({ cls := s.cls, config := s.config, changedFlag := false,
         original_file := os_path_abspath outfile }, none) := by
  have hfs2 : fs2 = FS.setContent fs (os_path_abspath outfile) content := by
    unfold LineBasedMDConfig.write at hw
    split at hw
    · exact Except.noConfusion hw
    · split at hw
      · simp only [horig] at hw
        injection hw with h1
        injection h1 with ha hb
        exact ha.symm
      · rename_i hcond
        rw [hch] at hcond
        simp at hcond
  have hrd : FS.read fs2 (os_path_abspath outfile) = some content := by
    rw [hfs2]
    exact fs_read_setContent _ _ _
  have hex : FS.pathExists fs2 (os_path_abspath outfile) = true := by
    rw [hfs2]
    exact fs_pathExists_setContent _ _ _
  refine ⟨hrd, by rw [hrd, horig], ?_⟩
  unfold LineBasedMDConfig.mk_from_file LineBasedMDConfig.set_original_file
  simp only [os_path_abspath_eq] at hrd hex ⊢
  rw [hex]
  have hp : LineBasedMDConfig.parse parseLine
      { cls := s.cls, config := [], changedFlag := false,
        original_file := outfile } fs2 =
      .ok ({ cls := s.cls, config := s.config, changedFlag := false,
             original_file := outfile }, w) := by
    unfold LineBasedMDConfig.parse
    simp only [hrd, htable]
  simp [hp]

/-- C1 witness: `store1` (parsed from `f1`, unchanged) written to `out`
copies the bytes `x = 1`, and a fresh store bound to `out` has the same
table. -/
theorem write_unchanged_round_trip_witness :
    FS.read [("f1", "x = 1"), ("out", "x = 1")] (os_path_abspath "out") =
      some "x = 1" ∧
    FS.read [("f1", "x = 1"), ("out", "x = 1")] (os_path_abspath "out") =
      FS.read fs1 store1.original_file ∧
    LineBasedMDConfig.mk_from_file store1.cls exampleParseLine
        [("f1", "x = 1"), ("out", "x = 1")] (os_path_abspath "out") =
      ({ cls := store1.cls, config := store1.config, changedFlag := false,
         original_file := os_path_abspath "out" }, none) :=
  write_unchanged_round_trip exampleParseLine store1 fs1 "x = 1" "out"
    false 0 [("f1", "x = 1"), ("out", "x = 1")] store1 rfl rfl rfl rfl
